import Mathlib

/-!
Verification of the weenix kernel sources against their specification.

Each subsystem of the repository that the claims touch is shallowly embedded
here as executable Lean definitions translated from the C sources:

* the TTY line discipline (drivers/tty/ldisc.c): a circular byte buffer with
  three cursors (`ldisc_tail`, `ldisc_cooked`, `ldisc_head`) and a `full`
  flag, driven by `ldisc_key_pressed` and drained by `ldisc_read`;
* the address-space map (vm/vmmap.c): lists of `vmarea` page intervals, with
  `vmmap_insert`, `vmmap_remove`, `vmmap_is_range_empty`, `vmmap_find_range`;
* the shadow-object copy-on-write machinery (vm/shadow.c) over a small
  memory-object system;
* the memory devices (drivers/memdevs.c).

Machine integers are modelled as `Nat` (the C indices are `size_t` and never
near overflow on the inputs considered); bytes are `Nat` values; the C
buffers are total functions `Nat → Nat` updated pointwise.  The buffer
capacity `LDISC_BUFFER_SIZE` is a kernel configuration constant whose header
is not part of the repository snapshot, so the line-discipline model is
parameterised by it (`N`).
-/

/-! ## Line discipline (drivers/tty/ldisc.c) -/

/-- Control byte: end of transmission, Ctrl-D (`EOT = 0x04`). -/
def EOT : Nat := 4

/-- Control byte: end of text, Ctrl-C (`ETX = 0x03`). -/
def ETX : Nat := 3

/-- Control byte: backspace (`BS = 0x08`). -/
def BS : Nat := 8

/-- The newline byte. -/
def NL : Nat := 10

/-- Pointwise update of a byte buffer, the effect of a C array store. -/
def updateFn (f : Nat → Nat) (i v : Nat) : Nat → Nat :=
  fun j => if j = i then v else f j

/-- The line-discipline state: the circular buffer and its three cursors.
The C `ldisc_full` field is a `char` holding either the character zero or
the character one; it is compared only against those two values, so it is
modelled as a `Bool` (`true` for the character one). -/
structure Ldisc where
  ldisc_buffer : Nat → Nat
  ldisc_tail : Nat
  ldisc_cooked : Nat
  ldisc_head : Nat
  ldisc_full : Bool

/-- `ldisc_init`: the exact field values the source assigns, including
`ldisc_cooked = LDISC_BUFFER_SIZE - 1`.  The loop wipes the buffer to zero
bytes. -/
def ldisc_init (N : Nat) : Ldisc where
  ldisc_buffer := fun _ => 0
  ldisc_tail := 0
  ldisc_cooked := N - 1
  ldisc_head := 0
  ldisc_full := false

/-- `ldisc_increment`: circular increment modulo `N = LDISC_BUFFER_SIZE`. -/
def ldisc_increment (N x : Nat) : Nat :=
  if x = N - 1 then 0 else x + 1

/-- `ldisc_decrement`: circular decrement modulo `N = LDISC_BUFFER_SIZE`. -/
def ldisc_decrement (N x : Nat) : Nat :=
  if x = 0 then N - 1 else x - 1

/-- `ldisc_key_pressed`, transcribed branch for branch from the source.  The
returned `Bool` records whether `sched_wakeup_on` was called on the read
queue (the echo to the virtual terminal is outside the model).  The two
guards at the top are the full-buffer discard and the reserved-slot check
`head == ldisc_decrement(tail)`; the latter sets the `full` flag when the
incoming character is a newline. -/
def ldisc_key_pressed (N : Nat) (st : Ldisc) (c : Nat) : Ldisc × Bool :=
  if st.ldisc_full = true ∧ c ≠ ETX ∧ c ≠ BS then (st, false)
  else if st.ldisc_head = ldisc_decrement N st.ldisc_tail ∧ c ≠ NL ∧ c ≠ BS ∧ c ≠ ETX then
    (st, false)
  else
    let st1 :=
      if st.ldisc_head = ldisc_decrement N st.ldisc_tail ∧ c = NL then
        { st with ldisc_full := true }
      else st
    if c = NL then
      let h1 := ldisc_increment N st1.ldisc_head
      ({ st1 with
          ldisc_buffer := updateFn st1.ldisc_buffer st1.ldisc_head NL
          ldisc_head := h1
          ldisc_cooked := h1 }, true)
    else if c = EOT then
      let h1 := ldisc_increment N st1.ldisc_head
      ({ st1 with
          ldisc_buffer := updateFn st1.ldisc_buffer st1.ldisc_head EOT
          ldisc_head := h1
          ldisc_cooked := h1 }, true)
    else if c = ETX then
      let h1 := ldisc_increment N st1.ldisc_cooked
      ({ st1 with
          ldisc_head := h1
          ldisc_buffer := updateFn st1.ldisc_buffer (ldisc_decrement N h1) NL
          ldisc_cooked := h1 }, false)
    else if c = BS then
      if st1.ldisc_head = st1.ldisc_cooked then (st1, false)
      else ({ st1 with ldisc_head := ldisc_decrement N st1.ldisc_head }, false)
    else
      ({ st1 with
          ldisc_buffer := updateFn st1.ldisc_buffer st1.ldisc_head c
          ldisc_head := ldisc_increment N st1.ldisc_head }, false)

/-- The loop of `ldisc_read`.  `buffer` and `cooked` are the locals the C
function captures before the loop; `acc` collects (reversed) the bytes the
loop stores into the caller's buffer, so `acc.length` is `num_bytes`.  The
fuel bounds the loop; from any state whose cursors lie below `N` the C loop
takes fewer than `N` iterations, so fuel `N` is exact on such states.
On the normal exit (`iterator = cooked`) the C code returns without writing
`ldisc_tail`, and the model does the same. -/
def ldisc_read_loop (N : Nat) (buffer : Nat → Nat) (cooked count : Nat) :
    Nat → Ldisc → Nat → List Nat → Ldisc × List Nat × Nat
  | 0, st, _, acc => (st, acc.reverse, acc.length)
  | fuel + 1, st, iterator, acc =>
    if iterator = cooked then (st, acc.reverse, acc.length)
    else if buffer iterator = EOT then
      ({ st with ldisc_tail := ldisc_increment N iterator }, acc.reverse, acc.length)
    else
      let b := buffer iterator
      let acc1 := b :: acc
      let it1 := ldisc_increment N iterator
      let st1 := if st.ldisc_full = true then { st with ldisc_full := false } else st
      if b = NL then ({ st1 with ldisc_tail := it1 }, acc1.reverse, acc1.length)
      else if acc1.length = count then ({ st1 with ldisc_tail := it1 }, acc1.reverse, acc1.length)
      else ldisc_read_loop N buffer cooked count fuel st1 it1 acc1

/-- `ldisc_read`: returns the updated state, the bytes written to the
caller's buffer in order, and the returned byte count. -/
def ldisc_read (N : Nat) (st : Ldisc) (count : Nat) : Ldisc × List Nat × Nat :=
  ldisc_read_loop N st.ldisc_buffer st.ldisc_cooked count N st st.ldisc_tail []

/-- `ldisc_wait_read`.  The sleeps are driven by an oracle: each entry is the
value `sched_cancellable_sleep_on` returns together with the line-discipline
state observed on wakeup (keyboard input may have arrived while asleep).
The result is `some (returned value, number of sleeps performed)`, or `none`
when the thread is still blocked after the oracle runs out. -/
def ldisc_wait_read (st : Ldisc) : List (Int × Ldisc) → Option (Int × Nat)
  | [] =>
    if st.ldisc_head ≠ st.ldisc_tail then
      if st.ldisc_tail ≠ st.ldisc_cooked then some (0, 0) else none
    else some (0, 0)
  | (r, st2) :: rest =>
    if st.ldisc_head ≠ st.ldisc_tail then
      if st.ldisc_tail ≠ st.ldisc_cooked then some (0, 0)
      else if r < 0 then some (r, 1)
      else
        match ldisc_wait_read st2 rest with
        | some (v, n) => some (v, n + 1)
        | none => none
    else some (0, 0)

/-- The circular order `a ≤ᶜ b ≤ᶜ c` on indices modulo `N`: walking
clockwise from `a`, the index `b` is met no later than `c`. -/
def circularly_ordered (N a b c : Nat) : Prop :=
  (b + N - a) % N ≤ (c + N - a) % N

instance (N a b c : Nat) : Decidable (circularly_ordered N a b c) := by
  unfold circularly_ordered; infer_instance

/-- Circular decrement undoes circular increment, for every index. -/
theorem ldisc_decrement_increment (N x : Nat) :
    ldisc_decrement N (ldisc_increment N x) = x := by
  by_cases hx : x = N - 1
  · simp [ldisc_increment, ldisc_decrement, hx]
  · simp [ldisc_increment, ldisc_decrement, hx]

/-- C3: the state `ldisc_init` leaves behind violates the cursor invariant
`tail ≤ᶜ cooked ≤ᶜ head`: the source sets `ldisc_cooked` to
`LDISC_BUFFER_SIZE - 1` while `tail = head = 0`, so the circular distance
from `tail` to `cooked` is `N - 1` while the distance to `head` is `0`.
Stated for every buffer capacity `N = m + 2`. -/
theorem ldisc_init_violates_cursor_invariant (m : Nat) :
    (ldisc_init (m + 2)).ldisc_tail = 0 ∧
    (ldisc_init (m + 2)).ldisc_cooked = m + 1 ∧
    (ldisc_init (m + 2)).ldisc_head = 0 ∧
    ¬ circularly_ordered (m + 2) (ldisc_init (m + 2)).ldisc_tail
        (ldisc_init (m + 2)).ldisc_cooked (ldisc_init (m + 2)).ldisc_head := by
  refine ⟨rfl, rfl, rfl, ?_⟩
  intro h
  unfold circularly_ordered ldisc_init at h
  simp only at h
  rw [show m + 2 - 1 + (m + 2) - 0 = (m + 1) + (m + 2) by omega,
      show 0 + (m + 2) - 0 = 0 + (m + 2) by omega,
      Nat.add_mod_right, Nat.add_mod_right,
      Nat.mod_eq_of_lt (by omega), Nat.zero_mod] at h
  omega

/-- C4: after `ldisc_init`, one newline and one `ldisc_read` the buffer is
completely empty (`tail = cooked = head`), yet `ldisc_wait_read` returns `0`
immediately — zero sleeps — for every oracle, because its loop guard is
`head != tail` rather than `tail == cooked`.  Stated for every buffer
capacity `N = m + 2`. -/
theorem ldisc_wait_read_returns_zero_on_empty_buffer (m : Nat) (oracle : List (Int × Ldisc)) :
    ((ldisc_read (m + 2) (ldisc_key_pressed (m + 2) (ldisc_init (m + 2)) NL).1 10).1.ldisc_tail = 1 ∧
     (ldisc_read (m + 2) (ldisc_key_pressed (m + 2) (ldisc_init (m + 2)) NL).1 10).1.ldisc_cooked = 1 ∧
     (ldisc_read (m + 2) (ldisc_key_pressed (m + 2) (ldisc_init (m + 2)) NL).1 10).1.ldisc_head = 1) ∧
    ldisc_wait_read (ldisc_read (m + 2) (ldisc_key_pressed (m + 2) (ldisc_init (m + 2)) NL).1 10).1 oracle
      = some (0, 0) := by
  have h01 : ¬ ((0 : Nat) = m + 1) := by omega
  have hkey : (ldisc_key_pressed (m + 2) (ldisc_init (m + 2)) NL).1 =
      { ldisc_buffer := updateFn (fun _ => 0) 0 NL
        ldisc_tail := 0
        ldisc_cooked := 1
        ldisc_head := 1
        ldisc_full := false } := by
    simp [ldisc_key_pressed, ldisc_init, ldisc_decrement, ldisc_increment, EOT, ETX, BS, NL, h01]
  rw [hkey]
  have hread : (ldisc_read (m + 2)
      { ldisc_buffer := updateFn (fun _ => 0) 0 NL
        ldisc_tail := 0
        ldisc_cooked := 1
        ldisc_head := 1
        ldisc_full := false } 10).1 =
      { ldisc_buffer := updateFn (fun _ => 0) 0 NL
        ldisc_tail := 1
        ldisc_cooked := 1
        ldisc_head := 1
        ldisc_full := false } := by
    show (ldisc_read_loop (m + 2) _ 1 10 (m + 2) _ 0 []).1 = _
    rw [show m + 2 = (m + 1) + 1 by omega]
    simp [ldisc_read_loop, updateFn, ldisc_increment, EOT, NL, h01]
  rw [hread]
  rcases oracle with _ | ⟨⟨r, st3⟩, rest⟩ <;> simp [ldisc_wait_read]

/-- C8: `ldisc_read` with `count = 0` still copies a byte into the caller's
buffer and returns `1`, because the `num_bytes == count` check only runs
after a byte has been stored.  The state is the one reached from
`ldisc_init` by a single newline key press; the buffer capacity is any
`N = m + 2`. -/
theorem ldisc_read_overruns_zero_count (m : Nat) :
    (ldisc_read (m + 2) (ldisc_key_pressed (m + 2) (ldisc_init (m + 2)) NL).1 0).2.1 = [NL] ∧
    (ldisc_read (m + 2) (ldisc_key_pressed (m + 2) (ldisc_init (m + 2)) NL).1 0).2.2 = 1 := by
  have h01 : ¬ ((0 : Nat) = m + 1) := by omega
  have hkey : (ldisc_key_pressed (m + 2) (ldisc_init (m + 2)) NL).1 =
      { ldisc_buffer := updateFn (fun _ => 0) 0 NL
        ldisc_tail := 0
        ldisc_cooked := 1
        ldisc_head := 1
        ldisc_full := false } := by
    simp [ldisc_key_pressed, ldisc_init, ldisc_decrement, ldisc_increment, EOT, ETX, BS, NL, h01]
  rw [hkey]
  show ((ldisc_read_loop (m + 2) _ 1 0 (m + 2) _ 0 []).2.1 = _) ∧
       ((ldisc_read_loop (m + 2) _ 1 0 (m + 2) _ 0 []).2.2 = _)
  rw [show m + 2 = (m + 1) + 1 by omega]
  simp [ldisc_read_loop, updateFn, ldisc_increment, EOT, NL, h01]

/-- C10: for every state, processing `ETX` commits a cooked blank line —
`head` becomes `cooked + 1` (circularly), a newline is stored in the slot
just before the new `head` (the old `cooked` slot), `cooked` is advanced to
`head` — and no wakeup is issued.  Moreover the wakeup bit of
`ldisc_key_pressed` is set exactly when the buffer is not full and the
character is a newline, or an `EOT` that does not hit the reserved-slot
guard; in particular only newline and `EOT` input ever wake readers. -/
theorem ldisc_etx_blank_line_and_wakeup_chars (N : Nat) (st : Ldisc) (c : Nat) :
    ((ldisc_key_pressed N st ETX).1.ldisc_head = ldisc_increment N st.ldisc_cooked ∧
     (ldisc_key_pressed N st ETX).1.ldisc_cooked = (ldisc_key_pressed N st ETX).1.ldisc_head ∧
     (ldisc_key_pressed N st ETX).1.ldisc_buffer st.ldisc_cooked = NL ∧
     (ldisc_key_pressed N st ETX).2 = false) ∧
    ((ldisc_key_pressed N st c).2 = true ↔
      st.ldisc_full = false ∧
        (c = NL ∨ (c = EOT ∧ st.ldisc_head ≠ ldisc_decrement N st.ldisc_tail))) := by
  constructor
  · simp [ldisc_key_pressed, EOT, ETX, BS, NL, ldisc_decrement_increment, updateFn]
  · unfold ldisc_key_pressed
    rcases st with ⟨buf, t, ck, hd, full⟩
    rcases full <;>
      by_cases hNL : c = NL <;>
        by_cases hEOT : c = EOT <;>
          by_cases hETX : c = ETX <;>
            by_cases hBS : c = BS <;>
              by_cases hrs : hd = ldisc_decrement N t <;>
                simp_all [EOT, ETX, BS, NL] <;>
                  split_ifs <;> simp_all

/-! ## Address-space map (vm/vmmap.c)

A `vmarea` is a half-open page interval `[vma_start, vma_end)` with a page
offset into its memory object; `vma_obj` is the identifier of that object
(reference counting is outside this model).  `vmmap_remove` and
`vmmap_is_range_empty` iterate over the sorted area list; the iteration
macro captures the next link before the body runs, so removal of the
current element and insertions behind the saved link are not revisited —
the list-of-areas model below processes a snapshot of the list in order,
which coincides with the C traversal on the inputs considered. -/

structure vmarea where
  vma_start : Nat
  vma_end : Nat
  vma_off : Nat
  vma_prot : Nat
  vma_flags : Nat
  vma_obj : Nat

/-- `vmmap_lookup`: first area with `vma_start <= vfn && vma_end > vfn`. -/
def vmmap_lookup (areas : List vmarea) (vfn : Nat) : Option vmarea :=
  areas.find? (fun a => if a.vma_start ≤ vfn ∧ a.vma_end > vfn then true else false)

/-- The body of the `vmmap_remove` loop for one area of the snapshot, with
`endpage = lopage + npages`: the exact else-if chain of the source.  The
first branch (`start >= lopage && end > endpage`) raises `vma_start` to
`endpage` and stores `0` into `vma_off`; the second (`start < lopage &&
end > endpage`) truncates the original to `[start, lopage)` and allocates a
new area `[endpage, old_end)` sharing the object, with `vma_off = 0`; the
third shortens `vma_end` to `lopage`; the fourth unlinks the area.
Allocation failure (`ENOMEM`) does not arise in the model. -/
def vmmap_remove_area (lopage endpage : Nat) (a : vmarea) : List vmarea :=
  if a.vma_start ≥ lopage ∧ a.vma_end > endpage then
    [{ a with vma_start := endpage, vma_off := 0 }]
  else if a.vma_start < lopage ∧ a.vma_end > endpage then
    [{ a with vma_end := lopage },
     { vma_start := endpage, vma_end := a.vma_end, vma_off := 0,
       vma_prot := a.vma_prot, vma_flags := a.vma_flags, vma_obj := a.vma_obj }]
  else if a.vma_start < lopage ∧ a.vma_end ≥ lopage then
    [{ a with vma_end := lopage }]
  else if a.vma_start ≥ lopage ∧ a.vma_end ≤ endpage then
    []
  else [a]

/-- `vmmap_remove` over the snapshot of the area list (the split's new area
is linked where `vmmap_insert` puts it — directly after the truncated
original — and is not revisited by the saved-next iteration). -/
def vmmap_remove (areas : List vmarea) (lopage npages : Nat) : List vmarea :=
  areas.foldr (fun a acc => vmmap_remove_area lopage (lopage + npages) a ++ acc) []

/-- `vmmap_is_range_empty`, transcribed from the source: an area trips the
scan only when its start lies inside `[startvfn, endvfn)` or its end lies
inside `(startvfn, endvfn]`. -/
def vmmap_is_range_empty (areas : List vmarea) (startvfn npages : Nat) : Nat :=
  let endvfn := startvfn + npages
  areas.foldr
    (fun a rest =>
      if a.vma_start < endvfn ∧ a.vma_start ≥ startvfn then 0
      else if a.vma_end ≤ endvfn ∧ a.vma_end > startvfn then 0
      else rest) 1

/-- An area intersects the half-open page range `[startvfn, startvfn + npages)`. -/
def vmarea_intersects (a : vmarea) (startvfn npages : Nat) : Prop :=
  a.vma_start < startvfn + npages ∧ startvfn < a.vma_end

instance (a : vmarea) (s n : Nat) : Decidable (vmarea_intersects a s n) := by
  unfold vmarea_intersects; infer_instance

/-- C6: `vmmap_is_range_empty` reports the range `[2, 6)` as empty on a map
holding the single area `[0, 10)`, although that area strictly contains the
whole range: neither of the two checks of the source fires when
`vma_start < startvfn` and `vma_end > endvfn`. -/
theorem vmmap_is_range_empty_misses_containing_area :
    vmmap_is_range_empty [⟨0, 10, 0, 3, 2, 7⟩] 2 4 = 1 ∧
    vmarea_intersects ⟨0, 10, 0, 3, 2, 7⟩ 2 4 := by
  constructor <;> decide

/-- C2: removing pages `[s + 8, s + 24)` from the single 32-page area
`[s, s + 32)` with `vma_off = 5` (here `s = 100`) splits it into
`[100, 108)` and `[124, 132)`, but the source stores `0` into the right
area's `vma_off` instead of `old_off + (E - old_start) = 5 + 24 = 29`
(and likewise zeroes `vma_off` in the right-overlap case). -/
theorem vmmap_remove_zeroes_split_offset :
    (vmmap_remove [⟨100, 132, 5, 3, 2, 7⟩] 108 16).map
        (fun a => (a.vma_start, a.vma_end, a.vma_off))
      = [(100, 108, 5), (124, 132, 0)] ∧
    (0 : Nat) ≠ 5 + 24 := by
  constructor <;> decide

/-- Search direction for `vmmap_find_range` (`mm/mman.h` values are opaque;
`vmmap_find_range` asserts the argument is one of the two). -/
inductive VMMapDir where
  | LOHI
  | HILO
deriving DecidableEq

/-- The `VMMAP_DIR_LOHI` loop of `vmmap_find_range`: `i` runs upward from
`USER_MEM_LOW`'s page while `i < user_end_page` (the fuel counts the
remaining iterations, `user_end_page - i`).  On a free page the window is
extended (recording its start when the count was zero); on a mapped page
both are reset; after either case the body returns `start` when the count
reaches `npages`. -/
def vmmap_find_range_lohi (areas : List vmarea) (npages : Nat) :
    Nat → Nat → Nat → Nat → Int
  | 0, _, _, _ => -1
  | fuel + 1, i, count, start =>
    let p :=
      match vmmap_lookup areas i with
      | none => (if count = 0 then i else start, count + 1)
      | some _ => (0, 0)
    if p.2 = npages then Int.ofNat p.1
    else vmmap_find_range_lohi areas npages fuel (i + 1) p.2 p.1

/-- The `VMMAP_DIR_HILO` loop: `i` runs downward from `USER_MEM_HIGH`'s page
itself (inclusive) while `i >= user_start_page`; the fuel counts the
remaining iterations, `i + 1 - user_start_page`.  The C loop index is a
`size_t`, so the loop only terminates because `user_start_page` is
positive. -/
def vmmap_find_range_hilo (areas : List vmarea) (npages : Nat) :
    Nat → Nat → Nat → Int
  | 0, _, _ => -1
  | fuel + 1, i, count =>
    let count1 :=
      match vmmap_lookup areas i with
      | none => count + 1
      | some _ => 0
    if count1 = npages then Int.ofNat i
    else vmmap_find_range_hilo areas npages fuel (i - 1) count1

/-- `vmmap_find_range`, parameterised by the page numbers of `USER_MEM_LOW`
and `USER_MEM_HIGH` (kernel configuration constants whose header is not part
of the repository snapshot). -/
def vmmap_find_range (areas : List vmarea) (npages : Nat) (dir : VMMapDir)
    (user_start_page user_end_page : Nat) : Int :=
  match dir with
  | .LOHI => vmmap_find_range_lohi areas npages (user_end_page - user_start_page)
      user_start_page 0 0
  | .HILO => vmmap_find_range_hilo areas npages (user_end_page + 1 - user_start_page)
      user_end_page 0

/-- C7: on an empty map (with `USER_MEM_LOW_PN = 16`, `USER_MEM_HIGH_PN = 48`)
the LOHI search for 16 pages returns the bottom page 16 as the claim states,
but the HILO search returns `33 = 48 - 15`, not `48 - 16`: the downward scan
starts at `USER_MEM_HIGH_PN` itself, one page past the user range, so the
window it reports sticks out above `USER_MEM_HIGH_PN`. -/
theorem vmmap_find_range_hilo_off_by_one :
    vmmap_find_range [] 16 .LOHI 16 48 = 16 ∧
    vmmap_find_range [] 16 .HILO 16 48 = 33 ∧
    (33 : Int) ≠ 48 - 16 := by
  refine ⟨by decide, by decide, by decide⟩

/-! ## `vmmap_insert` at the level of list links

`vmmap_insert` manipulates the intrusive circular doubly-linked list of the
map directly, and its loop lacks an early return: after `list_insert_before`
fires it keeps iterating and finally also runs `list_insert_tail` on the
same link.  To capture what that does to the pointers, the list is modelled
concretely: nodes are numbers (0 is the sentinel, the list head inside
`vmmap_t`), and the state is the pair of `next`/`prev` pointer maps.  The
iteration macro captures the next link before each body, as the C macro
does. -/

structure DCircList where
  nxt : Nat → Nat
  prv : Nat → Nat

/-- `list_insert_before(link, to_insert)`: the four pointer assignments of
the C helper, later assignments overwriting earlier ones. -/
def list_insert_before (d : DCircList) (ref n : Nat) : DCircList :=
  let p := d.prv ref
  { nxt := fun x => if x = p then n else if x = n then ref else d.nxt x
    prv := fun x => if x = ref then n else if x = n then p else d.prv x }

/-- `list_insert_tail(list, link) = list_insert_before(sentinel, link)`. -/
def list_insert_tail (d : DCircList) (n : Nat) : DCircList :=
  list_insert_before d 0 n

/-- The loop of `vmmap_insert`: `var` is the current node, `nx` the next
link captured before the body; the body inserts `newId` before `var`
whenever `var`'s area has `vma_end >= new_vma->vma_start` — and then keeps
going.  The loop ends when `var` is the sentinel. -/
def vmmap_insert_loop (areas : Nat → vmarea) (newId : Nat) :
    Nat → DCircList → Nat → Nat → DCircList
  | 0, d, _, _ => d
  | fuel + 1, d, var, nx =>
    if var = 0 then d
    else
      let d1 :=
        if (areas var).vma_end ≥ (areas newId).vma_start then
          list_insert_before d var newId
        else d
      vmmap_insert_loop areas newId fuel d1 nx (d1.nxt nx)

/-- `vmmap_insert`: run the loop from the first node, then unconditionally
`list_insert_tail` the new link. -/
def vmmap_insert (areas : Nat → vmarea) (d : DCircList) (newId fuel : Nat) : DCircList :=
  let v0 := d.nxt 0
  let d1 := vmmap_insert_loop areas newId fuel d v0 (d.nxt v0)
  list_insert_tail d1 newId

/-- The forward traversal of the list from the sentinel, as `list_iterate`
would walk it (fuel-bounded). -/
def dlist_nodes_from (d : DCircList) : Nat → Nat → List Nat
  | 0, _ => []
  | fuel + 1, cur => if cur = 0 then [] else cur :: dlist_nodes_from d fuel (d.nxt cur)

/-- The nodes of the list in forward order. -/
def dlist_nodes (d : DCircList) (fuel : Nat) : List Nat :=
  dlist_nodes_from d fuel (d.nxt 0)

/-- The map for the C5 scenario: node 1 is an existing area `[10, 15)`, node
2 the new disjoint area `[0, 5)`; the list initially holds node 1 alone. -/
def vmmap_insert_demo_areas : Nat → vmarea :=
  fun i =>
    if i = 1 then ⟨10, 15, 0, 3, 2, 7⟩
    else if i = 2 then ⟨0, 5, 0, 3, 2, 8⟩
    else ⟨0, 0, 0, 0, 0, 0⟩

/-- The initial list for the C5 scenario: sentinel 0 and node 1. -/
def vmmap_insert_demo_list : DCircList where
  nxt := fun x => if x = 0 then 1 else if x = 1 then 0 else x
  prv := fun x => if x = 0 then 1 else if x = 1 then 0 else x

/-- C5: inserting the disjoint area `[0, 5)` (node 2) into the sorted map
holding `[10, 15)` (node 1) first links node 2 before node 1 — correctly —
but the loop then falls through to `list_insert_tail`, which relinks node 2
behind the sentinel; the forward list afterwards is `[2]` alone, and the
existing area, node 1, is no longer reachable.  The list is neither sorted
with both areas nor holds the new area linked exactly once in front of the
old one. -/
theorem vmmap_insert_corrupts_list :
    dlist_nodes (vmmap_insert vmmap_insert_demo_areas vmmap_insert_demo_list 2 8) 8 = [2] ∧
    ¬ (1 ∈ dlist_nodes (vmmap_insert vmmap_insert_demo_areas vmmap_insert_demo_list 2 8) 8) := by
  constructor <;> decide

/-! ## Shadow objects (vm/shadow.c)

Memory objects are numbered; a system state holds each object's kind (a
shadow carries the identifiers of its `shadowed` parent and its non-shadow
`bottom_mobj`, as `mobj_shadow_t` does) and each object's page cache.  A
page frame is identified by the object owning it and the page number; its
contents are modelled as one value per page.  The only non-shadow kind the
claims need is the anonymous object, whose `fill_pframe` zeroes the page.
Chain walks are fuel-bounded (shadow chains are finite by construction). -/

inductive MobjKind where
  | anon
  | shadow (shadowed : Nat) (bottom : Nat)

structure MobjSys where
  kind : Nat → MobjKind
  cache : Nat → Nat → Option Nat

/-- Store a value into object `o`'s cached frame for page `pn`. -/
def cacheUpdate (c : Nat → Nat → Option Nat) (o pn v : Nat) : Nat → Nat → Option Nat :=
  fun o2 p2 => if o2 = o ∧ p2 = pn then some v else c o2 p2

/-- The default `get_pframe` path of an anonymous object: return the cached
frame, or create one filled with zeroes.  Results are (state, frame owner,
frame contents). -/
def anon_get_pframe (s : MobjSys) (o pn : Nat) : MobjSys × Nat × Nat :=
  match s.cache o pn with
  | some v => (s, o, v)
  | none => ({ s with cache := cacheUpdate s.cache o pn 0 }, o, 0)

/-- The chain walk of `shadow_fill_pframe`, starting at the filling object's
`shadowed` parent: while the current object is a shadow, look for a cached
copy of the page; otherwise obtain the page from the non-shadow object at
the end of the chain.  Returns the bytes copied into the fresh frame. -/
def shadow_fill_walk (s : MobjSys) : Nat → Nat → Nat → MobjSys × Nat
  | 0, _, _ => (s, 0)
  | fuel + 1, cur, pn =>
    match s.kind cur with
    | .shadow sh _ =>
      match s.cache cur pn with
      | some v => (s, v)
      | none => shadow_fill_walk s fuel sh pn
    | .anon =>
      let r := anon_get_pframe s cur pn
      (r.1, r.2.2)

/-- `mobj_default_get_pframe`: return the object's cached frame if present;
otherwise create a frame in the object's own cache and fill it through the
object's `fill_pframe` operation. -/
def mobj_default_get_pframe (s : MobjSys) (fuel o pn : Nat) : MobjSys × Nat × Nat :=
  match s.cache o pn with
  | some v => (s, o, v)
  | none =>
    match s.kind o with
    | .anon => ({ s with cache := cacheUpdate s.cache o pn 0 }, o, 0)
    | .shadow sh _ =>
      let r := shadow_fill_walk s fuel sh pn
      ({ r.1 with cache := cacheUpdate r.1.cache o pn r.2 }, o, r.2)

/-- The read-path walk of `shadow_get_pframe`, starting at the shadow's
`shadowed` parent: search each shadow's cache for the page, and if the whole
chain misses, forward to the non-shadow object's own `get_pframe`. -/
def shadow_read_walk (s : MobjSys) : Nat → Nat → Nat → MobjSys × Nat × Nat
  | 0, _, _ => (s, 0, 0)
  | fuel + 1, cur, pn =>
    match s.kind cur with
    | .shadow sh _ =>
      match s.cache cur pn with
      | some v => (s, cur, v)
      | none => shadow_read_walk s fuel sh pn
    | .anon => anon_get_pframe s cur pn

/-- `shadow_get_pframe`, transcribed from the source: with `forwrite` set it
runs the default path on `shadow->bottom_mobj`; with `forwrite` clear it
walks the chain from `shadow->shadowed`. -/
def shadow_get_pframe (s : MobjSys) (fuel o pn : Nat) (forwrite : Bool) :
    MobjSys × Nat × Nat :=
  match s.kind o with
  | .shadow sh bo =>
    if forwrite then mobj_default_get_pframe s fuel bo pn
    else shadow_read_walk s fuel sh pn
  | .anon => anon_get_pframe s o pn

/-- `mobj_get_pframe`: dispatch through the object's operations table. -/
def mobj_get_pframe (s : MobjSys) (fuel o pn : Nat) (forwrite : Bool) :
    MobjSys × Nat × Nat :=
  match s.kind o with
  | .shadow _ _ => shadow_get_pframe s fuel o pn forwrite
  | .anon => anon_get_pframe s o pn

/-- A user write through an object, as `vmmap_write` performs it: get the
frame with `forwrite` set and store into the frame that came back — that is,
into the cache of whatever object owns the returned frame. -/
def mobj_write_page (s : MobjSys) (fuel o pn v : Nat) : MobjSys :=
  let r := mobj_get_pframe s fuel o pn true
  { r.1 with cache := cacheUpdate r.1.cache r.2.1 pn v }

/-- A user read through an object, as `vmmap_read` performs it. -/
def mobj_read_page (s : MobjSys) (fuel o pn : Nat) : Nat :=
  (mobj_get_pframe s fuel o pn false).2.2

/-- The copy-on-write scenario after forking a private mapping, exactly the
object graph `vmmap_clone` builds: object 0 is the anonymous bottom holding
the originally written value 88 at page 0; object 1 is the pre-fork shadow
of 0; objects 2 (parent) and 3 (child) both shadow 1 with bottom 0. -/
def cow_demo_sys : MobjSys where
  kind := fun i =>
    if i = 1 then .shadow 0 0
    else if i = 2 then .shadow 1 0
    else if i = 3 then .shadow 1 0
    else .anon
  cache := fun o pn => if o = 0 ∧ pn = 0 then some 88 else none

/-- C1: in the post-fork scenario the parent's `forwrite` `get_pframe`
through its shadow (object 2) hands back a frame owned by the shared bottom
object 0, not by the shadow itself; after the parent writes 89 through it,
the parent's shadow cache is still empty, the bottom holds 89, and the child
(object 3) reads 89 instead of the original 88.  Before the write the child
read 88. -/
theorem shadow_forwrite_diverges_in_bottom :
    (mobj_get_pframe cow_demo_sys 5 2 0 true).2.1 = 0 ∧
    mobj_read_page cow_demo_sys 5 3 0 = 88 ∧
    mobj_read_page (mobj_write_page cow_demo_sys 5 2 0 89) 5 3 0 = 89 ∧
    (mobj_write_page cow_demo_sys 5 2 0 89).cache 2 0 = none ∧
    (mobj_write_page cow_demo_sys 5 2 0 89).cache 0 0 = some 89 ∧
    (89 : Nat) ≠ 88 := by
  refine ⟨by decide, by decide, by decide, by decide, by decide, by decide⟩

/-! ## Memory devices (drivers/memdevs.c) -/

/-- The device functions `memdevs.c` defines (tags standing for the C
function pointers). -/
inductive chardev_fn where
  | null_read
  | null_write
  | zero_read
  | zero_mmap
deriving DecidableEq

/-- A character-device operations table; an absent entry is a `NULL`
function pointer.  (`fill_pframe`/`flush_pframe` are left out: `memdevs_init`
never assigns them in the tables it registers.) -/
structure chardev_ops where
  read : Option chardev_fn
  write : Option chardev_fn
  mmap : Option chardev_fn
deriving DecidableEq

/-- A registered character device. -/
structure chardev where
  cd_id : Nat
  cd_ops : chardev_ops

/-- The file-scope `null_dev_ops` table of `memdevs.c` (unused by
`memdevs_init`): `.mmap = NULL`. -/
def null_dev_ops : chardev_ops :=
  { read := some .null_read, write := some .null_write, mmap := none }

/-- The file-scope `zero_dev_ops` table of `memdevs.c`. -/
def zero_dev_ops : chardev_ops :=
  { read := some .zero_read, write := some .null_write, mmap := some .zero_mmap }

/-- `memdevs_init`: the devices it builds and registers via
`chardev_register`, in order, with the operations the function assigns into
the freshly allocated tables.  The null device's table gets
`n_ops->mmap = zero_mmap`.  The device identifiers `MEM_NULL_DEVID` and
`MEM_ZERO_DEVID` come from a header outside the snapshot, so they are
parameters. -/
def memdevs_init (MEM_NULL_DEVID MEM_ZERO_DEVID : Nat) : List chardev :=
  [ { cd_id := MEM_NULL_DEVID
      cd_ops := { read := some .null_read, write := some .null_write, mmap := some .zero_mmap } },
    { cd_id := MEM_ZERO_DEVID
      cd_ops := { read := some .zero_read, write := some .null_write, mmap := some .zero_mmap } } ]

/-- C9: the chardev operations table `memdevs_init` registers for the null
device carries `zero_mmap` as its mmap operation — it is not absent — even
though the file's own (unused) `null_dev_ops` table has no mmap entry. -/
theorem memdevs_init_null_device_has_mmap (nullId zeroId : Nat) :
    ((memdevs_init nullId zeroId).head?.map (fun d => d.cd_ops.mmap))
      = some (some chardev_fn.zero_mmap) ∧
    ((memdevs_init nullId zeroId).head?.map (fun d => d.cd_ops.mmap)) ≠ some none ∧
    null_dev_ops.mmap = none := by
  refine ⟨rfl, by simp [memdevs_init], rfl⟩
